import Mathlib

set_option maxRecDepth 16000

/-!
Verification of the EVM-Deck MIDI command-mapping and volume-state core.

Shallow embedding of:
  * `devdeck/ketron.py` — command catalogues (`pedal_midis`, `tab_midis`,
    `cc_midis`) and the SysEx payload encoders (`format_pedal_sysex`,
    `format_tab_sysex`);
  * `devdeck/midi/midi_manager.py` — the `send_cc` validation/transmit path;
  * `devdeck/ketron/ketron_volume_manager.py` — the `KetronVolumeManager`
    volume registers, clamping, last-pressed pointer, and CC emission;
  * `devdeck/ketron/controls/ketron_key_mapping_control.py` —
    `_find_key_in_dict` case-insensitive catalogue resolution.

Python integers are modelled as `Int` (or `Nat` for non-negative protocol
constants); Python `None` as `Option`; raised exceptions as `Except`;
MIDI messages handed to the transport as explicit lists of send records.
-/

/-- Python `str.upper()` (character-wise ASCII uppercasing, which is what it
computes on every string occurring in this codebase), written over the
character list so that it evaluates by kernel reduction. -/
def pyUpper (s : String) : String := ⟨s.data.map Char.toUpper⟩

/-- Python `str.lower()` (character-wise ASCII lowercasing on all strings
occurring in this codebase). -/
def pyLower (s : String) : String := ⟨s.data.map Char.toLower⟩

/-- `KetronVolumeManager._MIN_VOLUME` (ketron_volume_manager.py line 37). -/
def MIN_VOLUME : Int := 0

/-- `KetronVolumeManager._MAX_VOLUME` (ketron_volume_manager.py line 38). -/
def MAX_VOLUME : Int := 127

/-- `KetronVolumeManager._clamp_volume` (ketron_volume_manager.py lines
196-198): `max(self._MIN_VOLUME, min(self._MAX_VOLUME, value))`. -/
def clamp_volume (value : Int) : Int :=
  max MIN_VOLUME (min MAX_VOLUME value)

/-- `KetronVolumeManager._clamp_channel` (lines 200-202):
`max(1, min(16, value))`. -/
def clamp_channel (value : Int) : Int :=
  max 1 (min 16 value)

/-! ## Command catalogues (ketron.py) -/

/-- `KETRON_SYSEX_MANUFACTURER_ID` (ketron.py line 4). -/
def KETRON_SYSEX_MANUFACTURER_ID : Nat := 0x43

/-- `KETRON_SYSEX_DEVICE_ID` (ketron.py line 5). -/
def KETRON_SYSEX_DEVICE_ID : Nat := 0x00

/-- `KETRON_SYSEX_ON_VALUE` (ketron.py line 6). -/
def KETRON_SYSEX_ON_VALUE : Nat := 0x7F

/-- `KETRON_SYSEX_OFF_VALUE` (ketron.py line 7). -/
def KETRON_SYSEX_OFF_VALUE : Nat := 0x00

/-- `KetronMidi._init_pedal_midis` (ketron.py lines 69-128): the pedal-command
catalogue, transcribed verbatim in insertion order. -/
def pedal_midis : List (String × Nat) := [
  ("Sustain", 0x00), ("Soft", 0x01), ("Sostenuto", 0x02), ("Arr.A", 0x03),
  ("Arr.B", 0x04), ("Arr.C", 0x05), ("Arr.D", 0x06), ("Fill1", 0x07),
  ("Fill2", 0x08), ("Fill3", 0x09), ("Fill4", 0x0A), ("Break1", 0x0B),
  ("Break2", 0x0C), ("Break3", 0x0D), ("Break4", 0x0E), ("Intro/End1", 0x0F),
  ("Intro/End2", 0x10), ("Intro/End3", 0x11), ("Start/Stop", 0x12),
  ("Tempo Up", 0x13), ("Tempo Down", 0x14), ("Fill", 0x15), ("Break", 0x16),
  ("To End", 0x17), ("Bass to Lowest", 0x18), ("Bass to Root", 0x19),
  ("Live Bass", 0x1A), ("Acc.BassToChord", 0x1B), ("Manual Bass", 0x1C),
  ("Voice Lock Bass", 0x1D), ("Bass Mono/Poly", 0x1E), ("Dial Down", 0x1F),
  ("Dial Up", 0x20), ("Auto Fill", 0x21), ("Fill to Arr.", 0x22),
  ("After Fill", 0x23), ("Low. Hold Start", 0x24), ("Low. Hold Stop", 0x25),
  ("Low. Hold Break", 0x26), ("Low. Stop Mute", 0x27), ("Low. Mute", 0x28),
  ("Low. and Bass", 0x29), ("Low. Voice Lock", 0x2A), ("Pianist", 0x2B),
  ("Pianist Auto/Stand.", 0x2C), ("Pianist Sustain", 0x2D), ("Bassist", 0x2E),
  ("Bassist Easy/Exp.", 0x2F), ("Key Start", 0x30), ("Key Stop", 0x31),
  ("Enter", 0x32), ("Exit", 0x33), ("Registration", 0x34), ("Fade", 0x35),
  ("Harmony", 0x36), ("Octave Up", 0x37), ("Octave Down", 0x38),
  ("RestartCount In", 0x39), ("Micro1 On/Off", 0x3A), ("Micro1 Down", 0x3B),
  ("Micro1 Up", 0x3C), ("Voicetr.On/Off", 0x3D), ("Voicetr.Down", 0x3E),
  ("Voicetr.Up", 0x3F), ("Micro2 On/Off", 0x40), ("EFX1 On/Off", 0x41),
  ("EFX2 On/Off", 0x42), ("Arabic.Set1", 0x43), ("Arabic.Set2", 0x44),
  ("Arabic.Set3", 0x45), ("Arabic.Set4", 0x46), ("Dry On Stop", 0x47),
  ("Pdf Page Down", 0x48), ("Pdf Page Up", 0x49), ("Pdf Scroll Down", 0x4A),
  ("Pdf Scroll Up", 0x4B), ("Glide Down", 0x4C), ("Lead Mute", 0x4D),
  ("Expr. Left/Style", 0x4E), ("Arabic Reset", 0x4F), ("Hold", 0x50),
  ("2nd On/Off", 0x51), ("Pause", 0x52), ("Talk On/Off", 0x53),
  ("Manual Drum", 0x54), ("Kick Off", 0x55), ("Snare Off", 0x56),
  ("Rimshot Off", 0x57), ("Hit-Hat Off", 0x58), ("Cymbal Off", 0x59),
  ("Tom Off", 0x5A), ("Latin1 Off", 0x5B), ("Latin2 Off", 0x5C),
  ("Latin3/Tamb Off", 0x5D), ("Clap/fx Off", 0x5E), ("Voice Down", 0x5F),
  ("Voice Up", 0x60), ("Regis Down", 0x61), ("Regis Up", 0x62),
  ("Style Voice Down", 0x63), ("Style Voice Up", 0x64), ("EFX1 Preset Down", 0x65),
  ("EFX1 Preset Up", 0x66), ("Multi", 0x67), ("Page<<", 0x68), ("Page>>", 0x69),
  ("RegisVoice<<", 0x6A), ("RegisVoice>>", 0x6B), ("Text Page", 0x6E),
  ("Text Page+", 0x6F), ("Style Voice 1", 0x70), ("Style Voice 2", 0x71),
  ("Style Voice 3", 0x72), ("Style Voice 4", 0x73), ("VIEW & MODELING", 0x74),
  ("Lock Bass", 0x75), ("LockChord", 0x76), ("Lyrics", 0x77),
  ("VoiceToABCD", 0x87), ("TAP", 0x88), ("Autocrash", 0x89),
  ("Transp Down", 0x8A), ("Transp Up", 0x8B), ("Text Record", 0x8C),
  ("Bass & Drum", 0x8D), ("Pdf Clear", 0x8E), ("Record", 0x90), ("Play", 0x91),
  ("DoubleDown", 0x92), ("DoubleUp", 0x93), ("Arr.Off", 0x94),
  ("FILL & DRUM IN", 0x95), ("Wah to Pedal", 0x96), ("Overdrive to Pedal", 0x98),
  ("Drum Mute", 0x99), ("Bass Mute", 0x9A), ("Chords Mute", 0x9B),
  ("Real Chords Mute", 0x9C), ("Voice2 to Pedal", 0x9D), ("Micro Edit", 0x9E),
  ("Micro2 Edit", 0x9F), ("HALF BAR", 0xA0), ("Bs Sust Pedal", 0xA1),
  ("Scale", 0xA2), ("End Swap", 0xA3), ("Set Down", 0xA4), ("Set Up", 0xA5),
  ("FswChDelay", 0xA6), ("IntroOnArr.", 0xA7), ("EndingOnArr.", 0xA8),
  ("Arr. Down", 0xA9), ("Arr. Up", 0xAA), ("Ending1", 0xAB), ("Ending2", 0xAC),
  ("Ending3", 0xAD), ("Bass Lock", 0xAE), ("Intro Loop", 0xB0),
  ("Scene Down", 0xB1), ("Scene Up", 0xB2), ("STEM Scene A", 0xB3),
  ("STEM Scene B", 0xB4), ("STEM Scene C", 0xB5), ("STEM Scene D", 0xB6),
  ("STEM Solo", 0xB7), ("STEM Autoplay", 0xB8), ("STEM A On/Off", 0xB9),
  ("STEM B On/Off", 0xBA), ("STEM C On/Off", 0xBB), ("STEM D On/Off", 0xBC),
  ("STEM Lead On/Off", 0xBD), ("Art. Toggle", 0xBE), ("Key Tune On/Off", 0xBF),
  ("Txt Clear", 0xC0), ("Voicetr. Edit", 0xC1), ("Clear Image", 0xC2)]

/-- `KetronMidi._init_tab_midis` (ketron.py lines 130-152): the tab-command
catalogue, transcribed verbatim in insertion order. -/
def tab_midis : List (String × Nat) := [
  ("DIAL_DOWN", 0x0), ("DIAL_UP", 0x1), ("PLAYER_A", 0x2), ("PLAYER_B", 0x3),
  ("ENTER", 0x4), ("MENU", 0x6), ("LYRIC", 0x7), ("LEAD", 0x8), ("VARIATION", 0x9),
  ("DRAWBARS_VIEW", 0x0a), ("DRAWBARS", 0x10), ("DRUMSET", 0x11), ("TALK", 0x12),
  ("VOICETRON", 0x13), ("STYLE_BOX", 0x14), ("VOICE1", 0x19), ("VOICE2", 0x1a),
  ("USER_VOICE", 0x1b), ("XFADE", 0x1c), ("INTRO1", 0x1d), ("INTRO2", 0x1e),
  ("INTRO3", 0x1f), ("BASSIST", 0x20), ("DRUM_MIXER", 0x22), ("OCTAVE_UP", 0x24),
  ("OCTAVE_DOWN", 0x25), ("USER_STYLE", 0x26), ("DSP", 0x27), ("ADSR_FILTER", 0x28),
  ("MICRO", 0x29), ("ARRA", 0x2c), ("ARRB", 0x2d), ("ARRC", 0x2e), ("ARRD", 0x2f),
  ("FILL", 0x30), ("BREAK", 0x31), ("JUKE_BOX", 0x32), ("STEM", 0x33),
  ("PIANIST", 0x34), ("BASS_TO_LOWEST", 0x40), ("MANUAL_BASS", 0x41),
  ("PORTAMENTO", 0x48), ("HARMONY", 0x49), ("PAUSE", 0x4a), ("TEMPO_SLOW", 0x4b),
  ("TEMPO_FAST", 0x4c), ("START_STOP", 0x4d), ("TRANSP_DOWN", 0x59),
  ("TRANSP_UP", 0x5a), ("AFTERTOUCH", 0x5e), ("EXIT", 0x5f), ("ROTOR_SLOW", 0x60),
  ("ROTOR_FAST", 0x61), ("PIANO_FAM", 0x62), ("ETHNIC_FAM", 0x63),
  ("ORGAN_FAM", 0x64), ("GUITAR_FAM", 0x65), ("BASS_FAM", 0x66),
  ("STRING_FAM", 0x67), ("BRASS_FAM", 0x68), ("SAX_FAM", 0x69), ("HOLD", 0x6f),
  ("PAD_FAM", 0x70), ("SYNTH_FAM", 0x71), ("FADEOUT", 0x73), ("BASS_TO_ROOT", 0x74),
  ("GM", 0x77)]

/-- `KetronMidi._init_cc_midis` (ketron.py lines 154-163) with the `SliderCC`
constants (lines 10-24) inlined, in insertion order. -/
def cc_midis : List (String × Nat) := [
  ("PLAYER", 0x66), ("STYLE", 0x67), ("DRUM", 0x68),
  ("CHORD", 0x6A), ("REALCHORD", 0x6B),
  ("BASS", 0x69), ("LOWERS", 0x6C), ("USER2", 0x6D), ("USER3", 0x6E),
  ("VOICE1", 0x72), ("VOICE2", 0x73), ("DRAWBARS", 0x74),
  ("MICRO1", 0x75), ("VOCAL", 0x76)]

/-! ## SysEx payload encoders (ketron.py) -/

/-- The state byte chosen at ketron.py line 183 / 229:
`KETRON_SYSEX_ON_VALUE if on_state else KETRON_SYSEX_OFF_VALUE`. -/
def sysex_state_value (on_state : Bool) : Nat :=
  if on_state then KETRON_SYSEX_ON_VALUE else KETRON_SYSEX_OFF_VALUE

/-- `KetronMidi.format_pedal_sysex` (ketron.py lines 165-209). A missing
pedal name raises `KeyError`, modelled as `none`. -/
def format_pedal_sysex (pedal_name : String) (on_state : Bool) : Option (List Nat) :=
  match List.lookup pedal_name pedal_midis with
  | none => none
  | some pedal_value =>
    let state_value := sysex_state_value on_state
    if pedal_value < 128 then
      some [KETRON_SYSEX_MANUFACTURER_ID, KETRON_SYSEX_DEVICE_ID,
            pedal_value, state_value]
    else
      some [KETRON_SYSEX_MANUFACTURER_ID, KETRON_SYSEX_DEVICE_ID,
            (pedal_value >>> 7) &&& 0x7F, pedal_value &&& 0x7F, state_value]

/-- `KetronMidi.format_tab_sysex` (ketron.py lines 211-241). A missing tab
name raises `KeyError`, modelled as `none`. Note: unlike the pedal encoder,
this encoder never splits the code into two 7-bit bytes. -/
def format_tab_sysex (tab_name : String) (on_state : Bool) : Option (List Nat) :=
  match List.lookup tab_name tab_midis with
  | none => none
  | some tab_value =>
    let state_value := sysex_state_value on_state
    some [KETRON_SYSEX_MANUFACTURER_ID, KETRON_SYSEX_DEVICE_ID,
          tab_value, state_value]

/-! ## MidiManager.send_cc (midi_manager.py lines 379-430) -/

/-- A Control Change send record: the arguments of a successful
`port.send(Message('control_change', ...))`. -/
structure CCSend where
  control : Int
  value : Int
  channel : Int
deriving DecidableEq, Repr

/-- Environment facts `MidiManager.send_cc` consults: whether the `mido`
library imported, whether `_get_port` yields an open port, and whether
`port.send` succeeds. -/
structure MidiEnv where
  midoAvailable : Bool
  portOpen : Bool
  sendOk : Bool
deriving DecidableEq, Repr

/-- `MidiManager.send_cc` (midi_manager.py lines 379-430): returns the
boolean result together with the message transmitted (`none` when nothing
was sent). Validation rejects out-of-range `control`, `value`, `channel`
before any transmission, without clamping. -/
def send_cc (env : MidiEnv) (control value channel : Int) : Bool × Option CCSend :=
  if env.midoAvailable = false then (false, none)
  else if ¬(0 ≤ control ∧ control ≤ 127) then (false, none)
  else if ¬(0 ≤ value ∧ value ≤ 127) then (false, none)
  else if ¬(0 ≤ channel ∧ channel ≤ 15) then (false, none)
  else if env.portOpen = false then (false, none)
  else if env.sendOk then (true, some ⟨control, value, channel⟩)
  else (false, none)

example : format_pedal_sysex "Start/Stop" true = some [0x43, 0x00, 0x12, 0x7F] := by decide
example : format_pedal_sysex "VoiceToABCD" false = some [0x43, 0x00, 0x01, 0x07, 0x00] := by decide
example : send_cc ⟨true, true, true⟩ 200 64 0 = (false, none) := by decide

/-! ## KetronVolumeManager state (ketron_volume_manager.py) -/

/-- The ten volume registers owned by `KetronVolumeManager`
(fields `_lower` .. `_master`, ketron_volume_manager.py lines 58-67). -/
inductive Register where
  | lower | voice1 | voice2 | drawbars | style
  | drum | chord | realchord | bass | master
deriving DecidableEq, Repr

/-- The mutable state of a `KetronVolumeManager` instance: the ten register
values (lines 58-67), the configured MIDI output channel (line 70) and the
last-pressed key name (line 74). -/
structure KVMState where
  lower : Int
  voice1 : Int
  voice2 : Int
  drawbars : Int
  style : Int
  drum : Int
  chord : Int
  realchord : Int
  bass : Int
  master : Int
  midi_out_channel : Int
  last_pressed_key_name : Option String
deriving DecidableEq, Repr

/-- The state right after `KetronVolumeManager.__init__`
(ketron_volume_manager.py lines 49-104): all registers 80, output
channel 16, last-pressed key `"Style"`. -/
def initState : KVMState :=
  { lower := 80, voice1 := 80, voice2 := 80, drawbars := 80, style := 80,
    drum := 80, chord := 80, realchord := 80, bass := 80, master := 80,
    midi_out_channel := 16, last_pressed_key_name := some "Style" }

/-- Read a register field (the `getattr(self, f"_{volume_name}")` of
`_get_volume`, lines 290-293). -/
def getVol (s : KVMState) : Register → Int
  | .lower => s.lower
  | .voice1 => s.voice1
  | .voice2 => s.voice2
  | .drawbars => s.drawbars
  | .style => s.style
  | .drum => s.drum
  | .chord => s.chord
  | .realchord => s.realchord
  | .bass => s.bass
  | .master => s.master

/-- Write a register field (the `setattr(self, f"_{volume_name}", value)` of
`_set_volume`, line 287). -/
def setVolRaw (s : KVMState) (r : Register) (v : Int) : KVMState :=
  match r with
  | .lower => { s with lower := v }
  | .voice1 => { s with voice1 := v }
  | .voice2 => { s with voice2 := v }
  | .drawbars => { s with drawbars := v }
  | .style => { s with style := v }
  | .drum => { s with drum := v }
  | .chord => { s with chord := v }
  | .realchord => { s with realchord := v }
  | .bass => { s with bass := v }
  | .master => { s with master := v }

/-- `KetronVolumeManager._set_volume` (lines 283-288): clamp, then store. -/
def set_volume_internal (s : KVMState) (r : Register) (value : Int) : KVMState :=
  setVolRaw s r (clamp_volume value)

/-- The register name strings used throughout the manager
(`'lower'`, `'voice1'`, ..., `'master'`). -/
def volumeName : Register → String
  | .lower => "lower"
  | .voice1 => "voice1"
  | .voice2 => "voice2"
  | .drawbars => "drawbars"
  | .style => "style"
  | .drum => "drum"
  | .chord => "chord"
  | .realchord => "realchord"
  | .bass => "bass"
  | .master => "master"

/-- Resolution of a volume-name string to a register attribute. A name off
the ten-register list resolves to `none`; this realizes both the
`valid_names` membership test of `set_volume` (lines 867-869) and the
`getattr`/`hasattr` attribute dispatch on `f"_{volume_name}"` /
`f"increment_{volume_name}"` used elsewhere. -/
def registerOfVolumeName (name : String) : Option Register :=
  if name = "lower" then some .lower
  else if name = "voice1" then some .voice1
  else if name = "voice2" then some .voice2
  else if name = "drawbars" then some .drawbars
  else if name = "style" then some .style
  else if name = "drum" then some .drum
  else if name = "chord" then some .chord
  else if name = "realchord" then some .realchord
  else if name = "bass" then some .bass
  else if name = "master" then some .master
  else none

/-- `valid_names` as listed in `KetronVolumeManager.set_volume` (line 867). -/
def valid_names : List String :=
  ["lower", "voice1", "voice2", "drawbars", "style", "drum", "chord",
   "realchord", "bass", "master"]

/-- `KetronVolumeManager._key_name_to_volume` (lines 82-101), transcribed
verbatim in insertion order (all keys are distinct strings). -/
def key_name_to_volume : List (String × String) := [
  ("LOWERS", "lower"),
  ("VOICE1", "voice1"),
  ("VOICE2", "voice2"),
  ("DRAW ORGAN", "drawbars"),
  ("DRAWBARS", "drawbars"),
  ("STYLE", "style"),
  ("Style", "style"),
  ("DRUM", "drum"),
  ("Drums", "drum"),
  ("CHORD", "chord"),
  ("Chords", "chord"),
  ("REALCHORD", "realchord"),
  ("REAL CHORD", "realchord"),
  ("Real Chords", "realchord"),
  ("BASS", "bass"),
  ("Bass", "bass"),
  ("MASTER VOLUME", "master"),
  ("MASTER", "master")]

/-! ## CC emission (ketron_volume_manager.py) -/

/-- `KetronVolumeManager._send_midi_cc_for_volume` (lines 204-281), reduced
to the send it attempts: reads the last-pressed key name (`None` and the
empty string are both falsy in `if not key_name`), finds the first
`cc_midis` key equal to it case-insensitively, and calls
`midi_manager.send_cc(cc_control, volume_value, self.midi_out_channel - 1)`.
The `volume_name` argument only feeds a warning log in the source, never
the message; it is kept for fidelity. -/
def send_midi_cc_for_volume (s : KVMState) (_volume_name : String)
    (volume_value : Int) : List CCSend :=
  match s.last_pressed_key_name with
  | none => []
  | some key_name =>
    if key_name = "" then []
    else
      match cc_midis.find? (fun p => pyUpper p.1 == pyUpper key_name) with
      | none => []
      | some p => [{ control := (p.2 : Int), value := volume_value,
                     channel := s.midi_out_channel - 1 }]

/-- `KetronVolumeManager._send_master_expression_cc` (lines 785-830):
always `send_cc(0x07, volume_value, self.midi_out_channel - 1)`. -/
def send_master_expression_cc (s : KVMState) (volume_value : Int) : List CCSend :=
  [{ control := 0x07, value := volume_value,
     channel := s.midi_out_channel - 1 }]

/-- Result of one register mutation: the new manager state, the returned
value, and the CC sends attempted. -/
structure VolResult where
  state : KVMState
  value : Int
  sent : List CCSend

/-- Embeds the nine per-register increment methods `increment_lower` /
`increment_voice1` / ... / `increment_bass` (ketron_volume_manager.py
lines 296-720), which are textually identical up to the register name:
read the register, clamp `current + amount`, store, then send the CC
derived from the last-pressed key. (`increment_master` is separate.) -/
def increment_volume (s : KVMState) (r : Register) (amount : Int) : VolResult :=
  let current := getVol s r
  let new_value := clamp_volume (current + amount)
  let s2 := set_volume_internal s r new_value
  { state := s2, value := new_value,
    sent := send_midi_cc_for_volume s2 (volumeName r) new_value }

/-- Embeds the nine per-register decrement methods `decrement_lower` ...
`decrement_bass` (lines 313-720): clamp `current - amount`, store, send. -/
def decrement_volume (s : KVMState) (r : Register) (amount : Int) : VolResult :=
  let current := getVol s r
  let new_value := clamp_volume (current - amount)
  let s2 := set_volume_internal s r new_value
  { state := s2, value := new_value,
    sent := send_midi_cc_for_volume s2 (volumeName r) new_value }

/-- Embeds the nine per-register mute methods `mute_lower` ... `mute_bass`
(lines 330-734): store 0, send, return 0. -/
def mute_volume (s : KVMState) (r : Register) : VolResult :=
  let s2 := set_volume_internal s r 0
  { state := s2, value := 0,
    sent := send_midi_cc_for_volume s2 (volumeName r) 0 }

/-- `KetronVolumeManager.increment_master` (lines 737-752): like the generic
increments but emits via `_send_master_expression_cc`. -/
def increment_master (s : KVMState) (amount : Int) : VolResult :=
  let current := getVol s .master
  let new_value := clamp_volume (current + amount)
  let s2 := set_volume_internal s .master new_value
  { state := s2, value := new_value,
    sent := send_master_expression_cc s2 new_value }

/-- `KetronVolumeManager.decrement_master` (lines 754-769). -/
def decrement_master (s : KVMState) (amount : Int) : VolResult :=
  let current := getVol s .master
  let new_value := clamp_volume (current - amount)
  let s2 := set_volume_internal s .master new_value
  { state := s2, value := new_value,
    sent := send_master_expression_cc s2 new_value }

/-- `KetronVolumeManager.mute_master` (lines 771-783). -/
def mute_master (s : KVMState) : VolResult :=
  let s2 := set_volume_internal s .master 0
  { state := s2, value := 0,
    sent := send_master_expression_cc s2 0 }

/-- Dispatch of an increment to the method of register `r`: the per-register
methods for the nine ordinary registers, `increment_master` for master. -/
def incrementRegister (s : KVMState) (r : Register) (amount : Int) : VolResult :=
  if r = .master then increment_master s amount else increment_volume s r amount

/-- Dispatch of a decrement to the method of register `r`. -/
def decrementRegister (s : KVMState) (r : Register) (amount : Int) : VolResult :=
  if r = .master then decrement_master s amount else decrement_volume s r amount

/-- Dispatch of a mute to the method of register `r`. -/
def muteRegister (s : KVMState) (r : Register) : VolResult :=
  if r = .master then mute_master s else mute_volume s r

/-! ## Last-pressed generic operations (ketron_volume_manager.py) -/

/-- Result of a last-pressed generic operation: the new state, the
`Optional[int]` return value, and the CC sends attempted. -/
structure OptResult where
  state : KVMState
  value : Option Int
  sent : List CCSend

/-- The target-resolution prologue shared by
`increment_last_pressed_volume` / `decrement_last_pressed_volume` /
`toggle_mute_last_pressed_volume` (lines 901-910, 936-945, 972-981):
`if not key_name: return None` (so both `None` and `""` fail), then
`self._key_name_to_volume.get(key_name.upper())`. -/
def targetVolumeName (s : KVMState) : Option String :=
  match s.last_pressed_key_name with
  | none => none
  | some key_name =>
    if key_name = "" then none
    else List.lookup (pyUpper key_name) key_name_to_volume

/-- `KetronVolumeManager.increment_last_pressed_volume` (lines 890-923):
resolve the target; `"master"` dispatches to `increment_master`; other
resolved names dispatch via `getattr(self, f"increment_{volume_name}")`
(realized by `registerOfVolumeName`); unresolved targets return `None`. -/
def increment_last_pressed_volume (s : KVMState) (amount : Int) : OptResult :=
  match targetVolumeName s with
  | none => { state := s, value := none, sent := [] }
  | some vname =>
    if vname = "master" then
      let r := increment_master s amount
      { state := r.state, value := some r.value, sent := r.sent }
    else
      match registerOfVolumeName vname with
      | some reg =>
        let r := increment_volume s reg amount
        { state := r.state, value := some r.value, sent := r.sent }
      | none => { state := s, value := none, sent := [] }

/-- `KetronVolumeManager.decrement_last_pressed_volume` (lines 925-958). -/
def decrement_last_pressed_volume (s : KVMState) (amount : Int) : OptResult :=
  match targetVolumeName s with
  | none => { state := s, value := none, sent := [] }
  | some vname =>
    if vname = "master" then
      let r := decrement_master s amount
      { state := r.state, value := some r.value, sent := r.sent }
    else
      match registerOfVolumeName vname with
      | some reg =>
        let r := decrement_volume s reg amount
        { state := r.state, value := some r.value, sent := r.sent }
      | none => { state := s, value := none, sent := [] }

/-- The toggle body of `toggle_mute_last_pressed_volume` once the target
register is resolved (lines 983-1008): if the current value is 0, store 80
and send 80, else store 0 and send 0; master sends via the Expression CC. -/
def toggle_mute_volume (s : KVMState) (r : Register) : VolResult :=
  let current_volume := getVol s r
  if current_volume = 0 then
    let s2 := set_volume_internal s r 80
    { state := s2, value := 80,
      sent := if r = .master then send_master_expression_cc s2 80
              else send_midi_cc_for_volume s2 (volumeName r) 80 }
  else
    let s2 := set_volume_internal s r 0
    { state := s2, value := 0,
      sent := if r = .master then send_master_expression_cc s2 0
              else send_midi_cc_for_volume s2 (volumeName r) 0 }

/-- `KetronVolumeManager.toggle_mute_last_pressed_volume` (lines 960-1008). -/
def toggle_mute_last_pressed_volume (s : KVMState) : OptResult :=
  match targetVolumeName s with
  | none => { state := s, value := none, sent := [] }
  | some vname =>
    match registerOfVolumeName vname with
    | some reg =>
      let r := toggle_mute_volume s reg
      { state := r.state, value := some r.value, sent := r.sent }
    | none => { state := s, value := none, sent := [] }

/-- `KetronVolumeManager.set_volume` (lines 852-872): an unrecognized name
raises `ValueError` before any mutation (modelled as `Except.error`, the
caller's state untouched); a recognized name stores the clamped value via
`_set_volume` and returns `self._get_volume(volume_name)`. No CC is sent
(the returned send list is always empty). -/
def set_volume (s : KVMState) (volume_name : String) (value : Int) :
    Except String (KVMState × Int × List CCSend) :=
  match registerOfVolumeName volume_name with
  | none => Except.error ("Invalid volume name: " ++ volume_name)
  | some r =>
    let s2 := set_volume_internal s r value
    Except.ok (s2, getVol s2 r, [])

/-- `KetronVolumeManager.set_midi_out_channel` (lines 874-888). -/
def set_midi_out_channel (s : KVMState) (channel : Int) : KVMState × Int :=
  let c := clamp_channel channel
  ({ s with midi_out_channel := c }, c)

/-! ## Operation sequences over one register (for the clamping invariant) -/

/-- The mutations a register is subject to: increment/decrement by an
arbitrary integer amount, mute, toggle-mute, and set. -/
inductive VolOp where
  | inc (amount : Int)
  | dec (amount : Int)
  | mute
  | toggleMute
  | set (value : Int)

/-- Apply one mutation to register `r` through the manager's methods. -/
def applyVolOp (s : KVMState) (r : Register) : VolOp → KVMState
  | .inc a => (incrementRegister s r a).state
  | .dec a => (decrementRegister s r a).state
  | .mute => (muteRegister s r).state
  | .toggleMute => (toggle_mute_volume s r).state
  | .set v =>
    match set_volume s (volumeName r) v with
    | Except.ok res => res.1
    | Except.error _ => s

/-- Apply a sequence of mutations to register `r`. -/
def applyVolOps (s : KVMState) (r : Register) (ops : List VolOp) : KVMState :=
  ops.foldl (fun st op => applyVolOp st r op) s

/-! ## Interleaving model of concurrent increments

`increment_lower` (and its siblings) is the sequence
`current = self._get_volume(...)` — which acquires and releases
`_volume_lock` — followed by `self._set_volume(..., clamp(current + amount))`
— which acquires the lock again.  The lock therefore makes the *read* and
the *write* individually atomic, but not the read-modify-write as a whole.
Each in-flight `increment(amount=1)` call is modelled as two atomic actions:
a `read` that records the register value it observed, and a `write` that
stores `clamp_volume(observed + 1)`. -/

/-- One atomic action of thread `tid` inside `increment_xxx(amount=1)`. -/
inductive IncAct where
  | read (tid : Nat)
  | write (tid : Nat)

/-- The register value plus the per-thread values recorded by `read`. -/
structure RaceState where
  vol : Int
  pend : List (Nat × Int)
deriving DecidableEq, Repr

/-- Execute one atomic action: `read` records the current value under the
lock; `write` stores the clamp of its recorded value plus 1 under the lock. -/
def stepIncAct (st : RaceState) : IncAct → RaceState
  | .read t => { st with pend := (t, st.vol) :: st.pend }
  | .write t =>
    match List.lookup t st.pend with
    | some v => { st with vol := clamp_volume (v + 1) }
    | none => st

/-- Execute a whole interleaving (a linearization of the lock-protected
sections of all threads). -/
def runIncActs (st : RaceState) (acts : List IncAct) : RaceState :=
  acts.foldl stepIncAct st

/-- The serialized schedule: each of `n` increment calls runs its read and
its write back to back. -/
def seqSchedule (n : Nat) : List IncAct :=
  (List.range n).foldr (fun t acc => .read t :: .write t :: acc) []

/-- The racy schedule: all `n` increment calls execute their locked read
before any executes its locked write. Every call still runs to completion. -/
def racySchedule (n : Nat) : List IncAct :=
  ((List.range n).map IncAct.read) ++ ((List.range n).map IncAct.write)

/-! ## Case-insensitive catalogue resolution -/

/-- `KetronKeyMappingControl._find_key_in_dict` (lines 366-387 of
ketron_key_mapping_control.py), over the dictionary's key list in insertion
order: exact match first, then the first key whose lowercase form equals the
query's lowercase form, else `None`. -/
def find_key_in_dict (key_name : String) (keys : List String) : Option String :=
  if keys.contains key_name then some key_name
  else keys.find? (fun dict_key => pyLower dict_key == pyLower key_name)

/-- The key list of the pedal catalogue (`self.ketron_midi.pedal_midis`). -/
def pedal_keys : List String := pedal_midis.map Prod.fst

/-! ## Supporting lemmas -/

theorem lookup_mem {α β : Type} [BEq α] [LawfulBEq α] {k : α} {v : β} :
    ∀ {l : List (α × β)}, List.lookup k l = some v → (k, v) ∈ l := by
  intro l h
  induction l with
  | nil => simp [List.lookup] at h
  | cons hd tl ih =>
    rw [List.lookup] at h
    by_cases hk : k == hd.1
    · simp only [hk, if_pos] at h
      have hk2 : k = hd.1 := eq_of_beq hk
      have hv : hd = (k, v) := by
        cases hd
        simp_all
      rw [hv]
      exact List.mem_cons_self _ _
    · simp only [hk, if_neg, Bool.false_eq_true] at h
      exact List.mem_cons_of_mem _ (ih h)

theorem pedal_lookup_complete :
    ∀ p ∈ pedal_midis, List.lookup p.1 pedal_midis = some p.2 := by decide

theorem tab_lookup_complete :
    ∀ p ∈ tab_midis, List.lookup p.1 tab_midis = some p.2 := by decide

theorem tab_codes_small : ∀ p ∈ tab_midis, p.2 < 128 := by decide

theorem clamp_volume_nonneg (v : Int) : 0 ≤ clamp_volume v := by
  unfold clamp_volume MIN_VOLUME
  exact le_max_left 0 _

theorem clamp_volume_le (v : Int) : clamp_volume v ≤ 127 := by
  unfold clamp_volume MIN_VOLUME MAX_VOLUME
  exact max_le (by norm_num) (min_le_left _ _)

theorem getVol_setVolRaw_self (s : KVMState) (r : Register) (v : Int) :
    getVol (setVolRaw s r v) r = v := by
  cases r <;> rfl

theorem getVol_setVolRaw_ne (s : KVMState) (r rb : Register) (v : Int)
    (h : rb ≠ r) : getVol (setVolRaw s r v) rb = getVol s rb := by
  cases r <;> cases rb <;> first | exact absurd rfl h | rfl

theorem setVolRaw_channel (s : KVMState) (r : Register) (v : Int) :
    (setVolRaw s r v).midi_out_channel = s.midi_out_channel := by
  cases r <;> rfl

theorem setVolRaw_key (s : KVMState) (r : Register) (v : Int) :
    (setVolRaw s r v).last_pressed_key_name = s.last_pressed_key_name := by
  cases r <;> rfl

theorem getVol_set_internal_self (s : KVMState) (r : Register) (v : Int) :
    getVol (set_volume_internal s r v) r = clamp_volume v :=
  getVol_setVolRaw_self s r (clamp_volume v)

theorem getVol_set_internal_ne (s : KVMState) (r rb : Register) (v : Int)
    (h : rb ≠ r) : getVol (set_volume_internal s r v) rb = getVol s rb :=
  getVol_setVolRaw_ne s r rb (clamp_volume v) h

theorem set_internal_channel (s : KVMState) (r : Register) (v : Int) :
    (set_volume_internal s r v).midi_out_channel = s.midi_out_channel :=
  setVolRaw_channel s r (clamp_volume v)

theorem set_internal_key (s : KVMState) (r : Register) (v : Int) :
    (set_volume_internal s r v).last_pressed_key_name = s.last_pressed_key_name :=
  setVolRaw_key s r (clamp_volume v)

theorem registerOfVolumeName_volumeName (r : Register) :
    registerOfVolumeName (volumeName r) = some r := by
  cases r <;> rfl

theorem registerOfVolumeName_none_iff (name : String) :
    registerOfVolumeName name = none ↔ name ∉ valid_names := by
  unfold registerOfVolumeName valid_names
  split_ifs <;> simp_all

theorem knv_values_mapped :
    ∀ p ∈ key_name_to_volume, (registerOfVolumeName p.2).isSome := by decide

theorem targetVolumeName_maps (s : KVMState) (vname : String)
    (h : targetVolumeName s = some vname) :
    ∃ r, registerOfVolumeName vname = some r := by
  unfold targetVolumeName at h
  split at h
  · exact absurd h (by simp)
  · split at h
    · exact absurd h (by simp)
    · have hmem := lookup_mem h
      have hs := knv_values_mapped _ hmem
      exact Option.isSome_iff_exists.mp hs

theorem targetVolumeName_of_ptr_none (s : KVMState)
    (h : s.last_pressed_key_name = none) : targetVolumeName s = none := by
  unfold targetVolumeName
  rw [h]

theorem incrementRegister_state (s : KVMState) (r : Register) (amount : Int) :
    (incrementRegister s r amount).state =
      set_volume_internal s r (clamp_volume (getVol s r + amount)) := by
  unfold incrementRegister increment_master increment_volume
  split
  · rename_i h
    subst h
    rfl
  · rfl

theorem decrementRegister_state (s : KVMState) (r : Register) (amount : Int) :
    (decrementRegister s r amount).state =
      set_volume_internal s r (clamp_volume (getVol s r - amount)) := by
  unfold decrementRegister decrement_master decrement_volume
  split
  · rename_i h
    subst h
    rfl
  · rfl

theorem muteRegister_state (s : KVMState) (r : Register) :
    (muteRegister s r).state = set_volume_internal s r 0 := by
  unfold muteRegister mute_master mute_volume
  split
  · rename_i h
    subst h
    rfl
  · rfl

/-! ## Claim theorems -/

theorem applyVolOp_in_range (s : KVMState) (r : Register) (op : VolOp) :
    0 ≤ getVol (applyVolOp s r op) r ∧ getVol (applyVolOp s r op) r ≤ 127 := by
  cases op with
  | inc a =>
    simp only [applyVolOp]
    rw [incrementRegister_state, getVol_set_internal_self]
    exact ⟨clamp_volume_nonneg _, clamp_volume_le _⟩
  | dec a =>
    simp only [applyVolOp]
    rw [decrementRegister_state, getVol_set_internal_self]
    exact ⟨clamp_volume_nonneg _, clamp_volume_le _⟩
  | mute =>
    simp only [applyVolOp]
    rw [muteRegister_state, getVol_set_internal_self]
    exact ⟨clamp_volume_nonneg _, clamp_volume_le _⟩
  | toggleMute =>
    simp only [applyVolOp, toggle_mute_volume]
    by_cases h : getVol s r = 0
    · rw [if_pos h]
      simp only
      rw [getVol_set_internal_self]
      exact ⟨clamp_volume_nonneg _, clamp_volume_le _⟩
    · rw [if_neg h]
      simp only
      rw [getVol_set_internal_self]
      exact ⟨clamp_volume_nonneg _, clamp_volume_le _⟩
  | set v =>
    simp only [applyVolOp, set_volume, registerOfVolumeName_volumeName]
    rw [getVol_set_internal_self]
    exact ⟨clamp_volume_nonneg _, clamp_volume_le _⟩

/-- C1: for every volume register and every sequence of increment, decrement,
mute, toggle-mute and set operations with arbitrary integer amounts, the
register's stored value lies in [0, 127] after each operation; in
particular a register at 125 incremented by 10 ends at 127, not 135. -/
theorem C1_clamp_invariant :
    (∀ (s : KVMState) (r : Register) (ops : List VolOp) (op : VolOp),
       0 ≤ getVol (applyVolOps s r (ops ++ [op])) r
       ∧ getVol (applyVolOps s r (ops ++ [op])) r ≤ 127)
    ∧ (incrementRegister { initState with lower := 125 } Register.lower 10).value = 127
    ∧ getVol (incrementRegister { initState with lower := 125 } Register.lower 10).state
        Register.lower = 127 := by
  refine ⟨?_, by decide, by decide⟩
  intro s r ops op
  have : applyVolOps s r (ops ++ [op]) = applyVolOp (applyVolOps s r ops) r op := by
    unfold applyVolOps
    rw [List.foldl_append]
    rfl
  rw [this]
  exact applyVolOp_in_range _ r op

/-- C3: for every pedal or tab command name present in its catalogue with
code `c` and every on/off state, the encoder produces exactly
`[0x43, 0x00, c, state]` when `c < 128` and
`[0x43, 0x00, (c >>> 7) &&& 0x7F, c &&& 0x7F, state]` when `c ≥ 128`,
where `state` is `0x7F` for on and `0x00` for off, for both the pedal and
the tab encoder. -/
theorem C3_sysex_encoding (name : String) (c : Nat) (st : Bool) :
    ((name, c) ∈ pedal_midis →
      format_pedal_sysex name st =
        some (if c < 128 then
                [0x43, 0x00, c, sysex_state_value st]
              else
                [0x43, 0x00, (c >>> 7) &&& 0x7F, c &&& 0x7F, sysex_state_value st]))
    ∧ ((name, c) ∈ tab_midis →
      format_tab_sysex name st =
        some (if c < 128 then
                [0x43, 0x00, c, sysex_state_value st]
              else
                [0x43, 0x00, (c >>> 7) &&& 0x7F, c &&& 0x7F, sysex_state_value st]))
    ∧ sysex_state_value true = 0x7F ∧ sysex_state_value false = 0x00 := by
  refine ⟨?_, ?_, rfl, rfl⟩
  · intro hmem
    have hl : List.lookup name pedal_midis = some c :=
      pedal_lookup_complete (name, c) hmem
    unfold format_pedal_sysex
    rw [hl]
    by_cases hc : c < 128
    · rw [if_pos hc]
      simp only [if_pos hc]
      rfl
    · rw [if_neg hc]
      simp only [if_neg hc]
      rfl
  · intro hmem
    have hl : List.lookup name tab_midis = some c :=
      tab_lookup_complete (name, c) hmem
    have hc : c < 128 := tab_codes_small (name, c) hmem
    unfold format_tab_sysex
    rw [hl]
    rw [if_pos hc]
    rfl

/-- Witness for C3: the pedal encoder at `"Start/Stop"` (code 0x12 < 128,
4-byte payload) and at `"VoiceToABCD"` (code 0x87 ≥ 128, split payload),
and the tab encoder at `"START_STOP"`. -/
theorem C3_sysex_encoding_witness :
    format_pedal_sysex "Start/Stop" true = some [0x43, 0x00, 0x12, 0x7F]
    ∧ format_pedal_sysex "VoiceToABCD" true = some [0x43, 0x00, 0x01, 0x07, 0x7F]
    ∧ format_tab_sysex "START_STOP" false = some [0x43, 0x00, 0x4D, 0x00] := by
  refine ⟨?_, ?_, ?_⟩
  · rw [(C3_sysex_encoding "Start/Stop" 0x12 true).1 (by decide)]
    decide
  · rw [(C3_sysex_encoding "VoiceToABCD" 0x87 true).1 (by decide)]
    decide
  · rw [(C3_sysex_encoding "START_STOP" 0x4D false).2.1 (by decide)]
    decide

/-- C4: `send_cc` with control outside [0,127], or value outside [0,127],
or channel outside [0,15], returns `False` without transmitting anything
and without clamping the arguments, whatever the environment. -/
theorem C4_send_cc_rejects (env : MidiEnv) (control value channel : Int)
    (h : ¬(0 ≤ control ∧ control ≤ 127) ∨ ¬(0 ≤ value ∧ value ≤ 127)
         ∨ ¬(0 ≤ channel ∧ channel ≤ 15)) :
    send_cc env control value channel = (false, none) := by
  unfold send_cc
  split_ifs <;> first | rfl | tauto

/-- Witness for C4: control 200 is rejected even with `mido` available, the
port open and transmission able to succeed. -/
theorem C4_send_cc_rejects_witness :
    send_cc ⟨true, true, true⟩ 200 64 0 = (false, none) :=
  C4_send_cc_rejects ⟨true, true, true⟩ 200 64 0 (Or.inl (by decide))

/-- C2: for every register reachable through the last-touched pointer,
toggle-mute at any nonzero current value sets the register to exactly 0 and
returns 0; toggle-mute at current value 0 sets it to exactly 80 (the fixed
restore constant, regardless of any earlier value) and returns 80. -/
theorem C2_toggle_mute_oscillation (s : KVMState) (vname : String) (r : Register)
    (h1 : targetVolumeName s = some vname)
    (h2 : registerOfVolumeName vname = some r) :
    (getVol s r ≠ 0 →
       (toggle_mute_last_pressed_volume s).value = some 0
       ∧ getVol (toggle_mute_last_pressed_volume s).state r = 0)
    ∧ (getVol s r = 0 →
       (toggle_mute_last_pressed_volume s).value = some 80
       ∧ getVol (toggle_mute_last_pressed_volume s).state r = 80) := by
  unfold toggle_mute_last_pressed_volume
  rw [h1]
  simp only [h2]
  constructor
  · intro hne
    unfold toggle_mute_volume
    rw [if_neg hne]
    refine ⟨rfl, ?_⟩
    simp only
    rw [getVol_set_internal_self]
    decide
  · intro hz
    unfold toggle_mute_volume
    rw [if_pos hz]
    refine ⟨rfl, ?_⟩
    simp only
    rw [getVol_set_internal_self]
    decide

/-- Witness for C2: with the pointer on `"LOWERS"`, toggling at lower = 5
returns 0, toggling at lower = 0 returns 80. -/
theorem C2_toggle_mute_oscillation_witness :
    (toggle_mute_last_pressed_volume
       { initState with last_pressed_key_name := some "LOWERS", lower := 5 }).value = some 0
    ∧ (toggle_mute_last_pressed_volume
       { initState with last_pressed_key_name := some "LOWERS", lower := 0 }).value = some 80 := by
  constructor
  · exact ((C2_toggle_mute_oscillation
      { initState with last_pressed_key_name := some "LOWERS", lower := 5 }
      "lower" Register.lower (by decide) (by decide)).1 (by decide)).1
  · exact ((C2_toggle_mute_oscillation
      { initState with last_pressed_key_name := some "LOWERS", lower := 0 }
      "lower" Register.lower (by decide) (by decide)).2 (by decide)).1

/-- C5: the generic last-touched operations return `None` exactly when the
last-pressed pointer is unset (`None`, or the falsy empty string) or its
value does not resolve through `_key_name_to_volume`; on a fresh manager
(default pointer `"Style"`) increment returns an integer, and after the
pointer is cleared to `None` it returns `None`. -/
theorem C5_no_target_signal (s : KVMState) (amount : Int) :
    ((increment_last_pressed_volume s amount).value = none ↔
       (s.last_pressed_key_name = none ∨ targetVolumeName s = none))
    ∧ ((decrement_last_pressed_volume s amount).value = none ↔
       (s.last_pressed_key_name = none ∨ targetVolumeName s = none))
    ∧ ((toggle_mute_last_pressed_volume s).value = none ↔
       (s.last_pressed_key_name = none ∨ targetVolumeName s = none))
    ∧ (increment_last_pressed_volume initState 1).value = some 81
    ∧ (increment_last_pressed_volume
         { initState with last_pressed_key_name := none } 1).value = none := by
  have hrhs : (s.last_pressed_key_name = none ∨ targetVolumeName s = none) ↔
      targetVolumeName s = none :=
    or_iff_right_of_imp (targetVolumeName_of_ptr_none s)
  refine ⟨?_, ?_, ?_, by decide, by decide⟩
  · rw [hrhs]
    unfold increment_last_pressed_volume
    cases hT : targetVolumeName s with
    | none => simp
    | some vname =>
      simp only
      by_cases hm : vname = "master"
      · rw [if_pos hm]
        simp [hT]
      · rw [if_neg hm]
        obtain ⟨r, hr⟩ := targetVolumeName_maps s vname hT
        rw [hr]
        simp [hT]
  · rw [hrhs]
    unfold decrement_last_pressed_volume
    cases hT : targetVolumeName s with
    | none => simp
    | some vname =>
      simp only
      by_cases hm : vname = "master"
      · rw [if_pos hm]
        simp [hT]
      · rw [if_neg hm]
        obtain ⟨r, hr⟩ := targetVolumeName_maps s vname hT
        rw [hr]
        simp [hT]
  · rw [hrhs]
    unfold toggle_mute_last_pressed_volume
    cases hT : targetVolumeName s with
    | none => simp
    | some vname =>
      simp only
      obtain ⟨r, hr⟩ := targetVolumeName_maps s vname hT
      rw [hr]
      simp [hT]

/-- The manager state whose last-pressed pointer is on the master register. -/
def masterState : KVMState :=
  { initState with last_pressed_key_name := some "MASTER" }

/-- C6: every state change of the master register — increment, decrement,
mute, and the last-touched generic verbs when they target master — emits
its CC with the fixed Expression controller number 7 on the configured
MIDI output channel (0-based: `midi_out_channel - 1`), never with a
catalogue controller number. -/
theorem C6_master_expression_cc (s : KVMState) (amount : Int) :
    ((increment_master s amount).sent =
       [{ control := 7, value := (increment_master s amount).value,
          channel := s.midi_out_channel - 1 }])
    ∧ ((decrement_master s amount).sent =
       [{ control := 7, value := (decrement_master s amount).value,
          channel := s.midi_out_channel - 1 }])
    ∧ ((mute_master s).sent =
       [{ control := 7, value := 0, channel := s.midi_out_channel - 1 }])
    ∧ (targetVolumeName s = some "master" →
        ((increment_last_pressed_volume s amount).sent.all
           (fun c => c.control == 7 && c.channel == s.midi_out_channel - 1)) = true
        ∧ ((decrement_last_pressed_volume s amount).sent.all
           (fun c => c.control == 7 && c.channel == s.midi_out_channel - 1)) = true
        ∧ ((toggle_mute_last_pressed_volume s).sent.all
           (fun c => c.control == 7 && c.channel == s.midi_out_channel - 1)) = true) := by
  have hinc : (increment_master s amount).sent =
      [{ control := 7, value := (increment_master s amount).value,
         channel := s.midi_out_channel - 1 }] := by
    unfold increment_master send_master_expression_cc
    simp only
    rw [set_internal_channel]
  have hdec : (decrement_master s amount).sent =
      [{ control := 7, value := (decrement_master s amount).value,
         channel := s.midi_out_channel - 1 }] := by
    unfold decrement_master send_master_expression_cc
    simp only
    rw [set_internal_channel]
  have hmut : (mute_master s).sent =
      [{ control := 7, value := 0, channel := s.midi_out_channel - 1 }] := by
    unfold mute_master send_master_expression_cc
    simp only
    rw [set_internal_channel]
  refine ⟨hinc, hdec, hmut, ?_⟩
  intro hT
  refine ⟨?_, ?_, ?_⟩
  · unfold increment_last_pressed_volume
    rw [hT]
    simp only [if_pos rfl]
    rw [hinc]
    simp
  · unfold decrement_last_pressed_volume
    rw [hT]
    simp only [if_pos rfl]
    rw [hdec]
    simp
  · unfold toggle_mute_last_pressed_volume
    rw [hT]
    have hm : registerOfVolumeName "master" = some Register.master := by decide
    simp only [hm]
    unfold toggle_mute_volume
    by_cases hz : getVol s Register.master = 0
    · rw [if_pos hz]
      simp only [if_pos rfl]
      unfold send_master_expression_cc
      rw [set_internal_channel]
      simp
    · rw [if_neg hz]
      simp only [if_pos rfl]
      unfold send_master_expression_cc
      rw [set_internal_channel]
      simp

/-- Witness for C6: with the pointer on `"MASTER"`, the generic
increment/decrement/toggle sends all use controller 7 on channel 15. -/
theorem C6_master_expression_cc_witness :
    ((increment_last_pressed_volume masterState 1).sent.all
       (fun c => c.control == 7 && c.channel == masterState.midi_out_channel - 1)) = true
    ∧ ((toggle_mute_last_pressed_volume masterState).sent.all
       (fun c => c.control == 7 && c.channel == masterState.midi_out_channel - 1)) = true := by
  constructor
  · exact ((C6_master_expression_cc masterState 1).2.2.2 (by decide)).1
  · exact ((C6_master_expression_cc masterState 1).2.2.2 (by decide)).2.2

/-- C7: the claimed atomicity fails on the code. `increment_xxx` reads the
register in `_get_volume` (one lock acquisition) and writes the clamped
result in `_set_volume` (a second lock acquisition), so the lock never
covers the whole read-modify-write. In the interleaving where all 100
`increment(amount=1)` calls perform their locked read before any performs
its locked write, every call completes yet the register ends at 1, not
`min(100, 127) = 100`; the fully serialized interleaving of the same 100
calls does end at 100, showing the loss comes from the interleaving alone. -/
theorem C7_lost_update :
    (runIncActs { vol := 0, pend := [] } (racySchedule 100)).vol = 1
    ∧ (runIncActs { vol := 0, pend := [] } (seqSchedule 100)).vol = 100
    ∧ (1 : Int) ≠ min 100 127 := by
  refine ⟨by decide, by decide, by decide⟩

/-- C8: `_find_key_in_dict` returns a key of the dictionary whose lowercase
form equals the query's lowercase form whenever such a key exists, and
`None` otherwise; in particular `"start/stop"` resolves to the same pedal
catalogue entry as `"Start/Stop"`. -/
theorem C8_case_insensitive_resolution (name : String) (keys : List String) :
    (∀ k, find_key_in_dict name keys = some k → k ∈ keys ∧ pyLower k = pyLower name)
    ∧ ((∃ k, k ∈ keys ∧ pyLower k = pyLower name) →
        (find_key_in_dict name keys).isSome = true)
    ∧ (find_key_in_dict name keys = none →
        ∀ k ∈ keys, pyLower k ≠ pyLower name)
    ∧ find_key_in_dict "start/stop" pedal_keys = some "Start/Stop"
    ∧ find_key_in_dict "Start/Stop" pedal_keys = some "Start/Stop" := by
  refine ⟨?_, ?_, ?_, by decide, by decide⟩
  · intro k h
    unfold find_key_in_dict at h
    by_cases hc : keys.contains name
    · rw [if_pos hc] at h
      have hk : k = name := by
        injection h with h2
        exact h2.symm
      subst hk
      exact ⟨List.elem_iff.mp hc, rfl⟩
    · rw [if_neg hc] at h
      have hm := List.mem_of_find?_eq_some h
      have hp := List.find?_some h
      exact ⟨hm, eq_of_beq hp⟩
  · rintro ⟨k, hk, he⟩
    unfold find_key_in_dict
    by_cases hc : keys.contains name
    · rw [if_pos hc]
      rfl
    · rw [if_neg hc]
      rw [List.find?_isSome]
      exact ⟨k, hk, by simp [he]⟩
  · intro h k hk he
    unfold find_key_in_dict at h
    by_cases hc : keys.contains name
    · rw [if_pos hc] at h
      exact absurd h (by simp)
    · rw [if_neg hc] at h
      have h2 := List.find?_eq_none.mp h k hk
      simp [he] at h2

/-- Witness for C8: the pedal catalogue contains a key lowercase-equal to
`"START/stop"`, so resolution succeeds. -/
theorem C8_case_insensitive_resolution_witness :
    (find_key_in_dict "START/stop" pedal_keys).isSome = true :=
  (C8_case_insensitive_resolution "START/stop" pedal_keys).2.1
    ⟨"Start/Stop", by decide, by decide⟩

/-- C9: mutating one register leaves all other state unchanged — after an
increment, decrement or mute of register `r`, every other register, the
last-pressed pointer and the configured MIDI output channel are exactly as
before. -/
theorem C9_frame_effect (s : KVMState) (r rb : Register) (amount : Int)
    (h : rb ≠ r) :
    getVol (incrementRegister s r amount).state rb = getVol s rb
    ∧ getVol (decrementRegister s r amount).state rb = getVol s rb
    ∧ getVol (muteRegister s r).state rb = getVol s rb
    ∧ (incrementRegister s r amount).state.last_pressed_key_name = s.last_pressed_key_name
    ∧ (incrementRegister s r amount).state.midi_out_channel = s.midi_out_channel
    ∧ (decrementRegister s r amount).state.last_pressed_key_name = s.last_pressed_key_name
    ∧ (decrementRegister s r amount).state.midi_out_channel = s.midi_out_channel
    ∧ (muteRegister s r).state.last_pressed_key_name = s.last_pressed_key_name
    ∧ (muteRegister s r).state.midi_out_channel = s.midi_out_channel := by
  rw [incrementRegister_state, decrementRegister_state, muteRegister_state]
  refine ⟨getVol_set_internal_ne s r rb _ h, getVol_set_internal_ne s r rb _ h,
    getVol_set_internal_ne s r rb _ h, set_internal_key s r _, set_internal_channel s r _,
    set_internal_key s r _, set_internal_channel s r _,
    set_internal_key s r _, set_internal_channel s r _⟩

/-- Witness for C9: incrementing `lower` by 5 leaves `style` untouched. -/
theorem C9_frame_effect_witness :
    getVol (incrementRegister initState Register.lower 5).state Register.style
      = getVol initState Register.style :=
  (C9_frame_effect initState Register.lower Register.style 5 (by decide)).1

/-- C10: `set_volume` raises `ValueError` exactly when the name is not one
of the ten recognized register names (mutating nothing, since the raise
precedes any store); for a recognized name it stores the value clamped to
[0,127], returns the stored value, emits no CC message, and leaves every
other register untouched. -/
theorem C10_set_volume_validation (s : KVMState) (name : String) (value : Int) :
    (set_volume s name value = Except.error ("Invalid volume name: " ++ name)
       ↔ name ∉ valid_names)
    ∧ (∀ r, registerOfVolumeName name = some r →
        set_volume s name value =
          Except.ok (set_volume_internal s r value, clamp_volume value, [])
        ∧ getVol (set_volume_internal s r value) r = clamp_volume value
        ∧ (∀ rb, rb ≠ r → getVol (set_volume_internal s r value) rb = getVol s rb)) := by
  constructor
  · cases hr : registerOfVolumeName name with
    | none =>
      have hnv : name ∉ valid_names := (registerOfVolumeName_none_iff name).mp hr
      unfold set_volume
      rw [hr]
      simp [hnv]
    | some r =>
      have hv : name ∈ valid_names := by
        by_contra hnv
        rw [← registerOfVolumeName_none_iff name] at hnv
        rw [hr] at hnv
        exact absurd hnv (by simp)
      unfold set_volume
      rw [hr]
      simp [hv]
  · intro r hr
    unfold set_volume
    rw [hr]
    simp only
    refine ⟨?_, getVol_set_internal_self s r value, ?_⟩
    · rw [getVol_set_internal_self]
    · intro rb hb
      exact getVol_set_internal_ne s r rb value hb

/-- Witness for C10: `set_volume` on `"lower"` with 200 stores the clamp
127, and on the unrecognized name `"volume"` it raises. -/
theorem C10_set_volume_validation_witness :
    set_volume initState "lower" 200 =
      Except.ok (set_volume_internal initState Register.lower 200, clamp_volume 200, [])
    ∧ set_volume initState "volume" 5 =
      Except.error ("Invalid volume name: " ++ "volume") := by
  constructor
  · exact ((C10_set_volume_validation initState "lower" 200).2 Register.lower (by decide)).1
  · exact (C10_set_volume_validation initState "volume" 5).1.mpr (by decide)
